import Mathlib

/-!
Verification of the activity-type inference engine of `strava_cli.py`
(GPX-to-Strava).  The engine is shallowly embedded: the XML document is a
tree of nodes (tag, text, attributes, children), strings are `List Char`,
Python floats are modelled over `ℚ` for parsing and `ℝ` for the kinematic
arithmetic, and `datetime` timestamps are epoch seconds (`Int`).
-/

set_option maxRecDepth 4000

/-- Convenience: the character list underlying a string literal. -/
def str (s : String) : List Char := s.data

/-- Boolean test that `p` is a prefix of the second list, after Python's
`str.startswith` used implicitly by substring search. -/
def isPrefixB : List Char → List Char → Bool
  | [], _ => true
  | _ :: _, [] => false
  | a :: as, b :: bs => a == b && isPrefixB as bs

/-- Python's `needle in hay` substring test on strings. -/
def containsSub (needle : List Char) : List Char → Bool
  | [] => needle.isEmpty
  | b :: bs => isPrefixB needle (b :: bs) || containsSub needle bs

/-- Python's `str.lower` (faithful on ASCII, which covers every tag and
keyword the source compares; `Char.toLower` lowers only A–Z). -/
def lowerStr (s : List Char) : List Char := s.map Char.toLower

/-- An XML element as `xml.etree.ElementTree` presents it: full tag string
(for a namespaced element this is "\x7buri\x7dlocal"), optional text, the
attribute dictionary, and the child elements in document order. -/
inductive Node : Type where
  | mk (tag : List Char) (text : Option (List Char))
       (attrs : List (List Char × List Char)) (children : List Node)

/-- Tag string of a node. -/
def ntag : Node → List Char
  | .mk t _ _ _ => t

/-- Text of a node (`elem.text`, `None` when absent). -/
def ntext : Node → Option (List Char)
  | .mk _ x _ _ => x

/-- Attribute dictionary of a node. -/
def nattrs : Node → List (List Char × List Char)
  | .mk _ _ a _ => a

/-- Child elements of a node. -/
def nchildren : Node → List Node
  | .mk _ _ _ c => c

/-- Preorder traversal of a node: the node followed by its subtree, i.e.
ElementTree's `elem.iter()`.  Defined through the recursor so that it
reduces in the kernel (the equation-compiler translation of nested
recursion does not). -/
noncomputable def iterSelf : Node → List Node :=
  @Node.rec (fun _ => List Node) (fun _ => List Node)
    (fun t x a cs ih => Node.mk t x a cs :: ih)
    []
    (fun _ _ ihHead ihTail => ihHead ++ ihTail)

/-- Preorder traversal of a forest: each root followed by its subtree. -/
noncomputable def iterNodes (l : List Node) : List Node := l.flatMap iterSelf

/-- Local part of an ElementTree tag string: for "\x7buri\x7dlocal" the part
after the closing brace, otherwise the whole tag. -/
def localName (tag : List Char) : List Char :=
  match tag with
  | c :: rest =>
      if c = Char.ofNat 123 then (rest.dropWhile (fun d => d ≠ Char.ofNat 125)).drop 1
      else tag
  | [] => []

/-- All proper descendants of a node in document order; the node set that
an ElementTree `.//` path query ranges over. -/
noncomputable def descendantsList (n : Node) : List Node := iterNodes (nchildren n)

/-- ElementTree `root.findall(".//\x7b*\x7dtg")`: every descendant whose
local tag name is `tg`, irrespective of namespace. -/
noncomputable def findallLocal (root : Node) (tg : List Char) : List Node :=
  (descendantsList root).filter (fun n => localName (ntag n) == tg)

/-- ElementTree `n.find("\x7b*\x7dtg")`: first direct child whose local tag
name is `tg`. -/
def findChild (n : Node) (tg : List Char) : Option Node :=
  (nchildren n).find? (fun c => localName (ntag c) == tg)

/-- Python `dict.get` on the attribute dictionary. -/
def getAttr (n : Node) (k : List Char) : Option (List Char) :=
  (nattrs n).lookup k

/-- The per-activity keyword table `ACTIVITY_MAP` of the source, in its
insertion (iteration) order. -/
def ACTIVITY_MAP : List (List Char × List (List Char)) :=
  [ (str "ride", [str "ride", str "bike", str "bicycle", str "cycling",
      str "rower", str "rad", str "velo", str "mtb", str "roadbike"]),
    (str "run", [str "run", str "running", str "jog", str "jogging",
      str "bieganie"]),
    (str "swim", [str "swim", str "swimming", str "pool", str "open water",
      str "basen", str "pływanie"]),
    (str "walk", [str "walk", str "walking", str "spacer",
      str "walking activity"]),
    (str "hike", [str "hike", str "hiking", str "trek", str "trekking",
      str "mountain", str "góry"]),
    (str "workout", [str "workout", str "training", str "gym",
      str "fitness", str "strength", str "hiit"]) ]

/-- The tag-to-label table `NORMALIZED_OUTPUT` of the source. -/
def NORMALIZED_OUTPUT : List (List Char × List Char) :=
  [ (str "ride", str "Ride"), (str "run", str "Run"),
    (str "swim", str "Swim"), (str "walk", str "Walk"),
    (str "hike", str "Hike"), (str "workout", str "Workout"),
    (str "other", str "Other") ]

/-- The source's `normalize_activity`.  A detector verdict is modelled as
`Option (List Char)`: `none` is the falsy sentinel `0`, `some l` a tag
string (`some []` the empty string, also falsy in Python). -/
def normalize_activity (label : Option (List Char)) : List Char :=
  match label with
  | none => str "Other"
  | some l =>
      if l = [] then str "Other"
      else ((NORMALIZED_OUTPUT.lookup (lowerStr l)).getD (str "Other"))

/-- The structural marker substrings `test_metadata` looks for in tag
strings. -/
def metaMarkers : List (List Char) :=
  [str "activity", str "sport", str "type", str "activitytype",
   str "tracktype", str "keywords"]

/-- The source's `test_metadata`: collect, over every node of the document
(`root.iter()`), the lowercased text of each node whose lowercased FULL tag
string contains a structural marker; then return the first activity (in
`ACTIVITY_MAP` order) one of whose keywords occurs in a candidate text,
scanning candidates in traversal order. -/
noncomputable def test_metadata (root : Node) : Option (List Char) :=
  let candidates := (iterSelf root).filterMap (fun e =>
    if metaMarkers.any (fun k => containsSub k (lowerStr (ntag e))) then
      some (lowerStr ((ntext e).getD []))
    else none)
  candidates.findSome? (fun text =>
    ACTIVITY_MAP.findSome? (fun ak =>
      if ak.2.any (fun k => containsSub k text) then some ak.1 else none))

/-- The source's `test_keywords` text collection: the lowercased texts of
all name/desc/cmt/keywords descendants, grouped by tag in that order. -/
noncomputable def annotationTexts (root : Node) : List (List Char) :=
  [str "name", str "desc", str "cmt", str "keywords"].flatMap (fun tg =>
    (findallLocal root tg).filterMap (fun el => (ntext el).map lowerStr))

/-- The source's `test_keywords`: join the annotation texts into one
space-separated blob and return the first activity one of whose keywords is
a substring of the blob. -/
noncomputable def test_keywords (root : Node) : Option (List Char) :=
  let blob := List.intercalate (str " ") (annotationTexts root)
  ACTIVITY_MAP.findSome? (fun ak =>
    if ak.2.any (fun k => containsSub k blob) then some ak.1 else none)

/-- Value of a digit string (most significant first). -/
def natOfDigits (l : List Char) : ℕ :=
  l.foldl (fun a c => a * 10 + (c.toNat - 48)) 0

/-- Unsigned decimal literal of Python `float()` as a numerator/denominator
pair (integer part, optional fractional part; at least one nonempty). -/
def pyFloatParts (s : List Char) : Option (ℕ × ℕ) :=
  match s.splitOn '.' with
  | [i] =>
      if i ≠ [] ∧ i.all Char.isDigit then some (natOfDigits i, 1) else none
  | [i, f] =>
      if (i ≠ [] ∨ f ≠ []) ∧ i.all Char.isDigit ∧ f.all Char.isDigit then
        some (natOfDigits i * 10 ^ f.length + natOfDigits f, 10 ^ f.length)
      else none
  | _ => none

/-- Modelled from Python's `float()` builtin, restricted to the plain
decimal literals (optional sign, digits, optional point) that GPX
coordinates use; other inputs are parse failures, as in Python where they
raise and the source's surrounding `try` skips the point. -/
def pyFloat (s : List Char) : Option ℚ :=
  match s with
  | '+' :: r => (pyFloatParts r).map (fun p => mkRat p.1 p.2)
  | '-' :: r => (pyFloatParts r).map (fun p => mkRat (-(p.1 : ℤ)) p.2)
  | _ => (pyFloatParts s).map (fun p => mkRat p.1 p.2)

/-- One decimal digit. -/
def parseDigit (c : Char) : Option Nat :=
  if c.isDigit then some (c.toNat - 48) else none

/-- Two decimal digits. -/
def parse2 : List Char → Option Nat
  | [a, b] => do pure ((← parseDigit a) * 10 + (← parseDigit b))
  | _ => none

/-- Four decimal digits. -/
def parse4 : List Char → Option Nat
  | [a, b, c, d] => do
      pure (((← parseDigit a) * 10 + (← parseDigit b)) * 100
        + ((← parseDigit c) * 10 + (← parseDigit d)))
  | _ => none

/-- Days since 1970-01-01 of a proleptic-Gregorian civil date (the standard
era-based formula; all intermediate quantities are nonnegative for the
four-digit years the ISO parser admits). -/
def daysFromCivil (y : Int) (m d : Nat) : Int :=
  let yy : Int := if m ≤ 2 then y - 1 else y
  let era : Int := (if 0 ≤ yy then yy else yy - 399) / 400
  let yoe : Int := yy - era * 400
  let doy : Int := (153 * (if 2 < m then (m : Int) - 3 else (m : Int) + 9) + 2) / 5
    + (d : Int) - 1
  let doe : Int := yoe * 365 + yoe / 4 - yoe / 100 + doy
  era * 146097 + doe - 719468

/-- Date part "YYYY-MM-DD". -/
def parseDate (s : List Char) : Option (Int × Nat × Nat) :=
  match s with
  | [a, b, c, d, h1, e, f, h2, g, i] =>
      if h1 = '-' ∧ h2 = '-' then do
        let y ← parse4 [a, b, c, d]
        let mo ← parse2 [e, f]
        let da ← parse2 [g, i]
        if 1 ≤ mo ∧ mo ≤ 12 ∧ 1 ≤ da ∧ da ≤ 31 then pure ((y : Int), mo, da)
        else none
      else none
  | _ => none

/-- Time part "HH:MM:SS", as seconds past midnight. -/
def parseHMS (s : List Char) : Option Nat :=
  match s with
  | [h1, h2, c1, m1, m2, c2, s1, s2] =>
      if c1 = ':' ∧ c2 = ':' then do
        let h ← parse2 [h1, h2]
        let mi ← parse2 [m1, m2]
        let ss ← parse2 [s1, s2]
        if h ≤ 23 ∧ mi ≤ 59 ∧ ss ≤ 59 then pure (h * 3600 + mi * 60 + ss)
        else none
      else none
  | _ => none

/-- Offset part "HH:MM", as seconds. -/
def parseOffset (s : List Char) : Option Nat :=
  match s with
  | [h1, h2, c1, m1, m2] =>
      if c1 = ':' then do
        let h ← parse2 [h1, h2]
        let mi ← parse2 [m1, m2]
        if h ≤ 23 ∧ mi ≤ 59 then pure (h * 3600 + mi * 60)
        else none
      else none
  | _ => none

/-- Modelled from Python's `datetime.fromisoformat`, restricted to the
"YYYY-MM-DD", "YYYY-MM-DDTHH:MM:SS" and "YYYY-MM-DDTHH:MM:SS±HH:MM" shapes
GPX timestamps take (space accepted as separator, naive timestamps read as
UTC, fractional seconds not modelled).  Returns epoch seconds.  A literal
"Z" suffix is NOT accepted here, as in the Python versions the source
targets — hence the source's `replace` preprocessing. -/
def fromiso (s : List Char) : Option Int := do
  let (y, mo, da) ← parseDate (s.take 10)
  let days := daysFromCivil y mo da
  match s.drop 10 with
  | [] => pure (days * 86400)
  | t :: tr =>
      if t = 'T' ∨ t = ' ' then
        match parseHMS (tr.take 8), tr.drop 8 with
        | some hms, [] => pure (days * 86400 + (hms : Int))
        | some hms, sgn :: off =>
            match parseOffset off with
            | some osec =>
                if sgn = '+' then pure (days * 86400 + (hms : Int) - (osec : Int))
                else if sgn = '-' then pure (days * 86400 + (hms : Int) + (osec : Int))
                else none
            | none => none
        | none, _ => none
      else none

/-- The source's `time_el.text.replace("Z", "+00:00")`: every occurrence of
the character Z becomes "+00:00" (for a one-character pattern Python's
`str.replace` is exactly this character-wise expansion). -/
def replaceZ (s : List Char) : List Char :=
  s.flatMap (fun c => if c = 'Z' then str "+00:00" else [c])

/-- The body of the source's `extract_points` loop for one `trkpt` node:
require truthy `lat` and `lon` attributes and a `time` child, then parse
timestamp (after Z-replacement) and both coordinates; any failure skips the
point (the source's bare `except: pass`). -/
def parsePoint (n : Node) : Option (ℚ × ℚ × Int) :=
  match getAttr n (str "lat"), getAttr n (str "lon"), findChild n (str "time") with
  | some la, some lo, some te =>
      if la ≠ [] ∧ lo ≠ [] then
        match ntext te with
        | some ts =>
            match fromiso (replaceZ ts), pyFloat la, pyFloat lo with
            | some t, some fla, some flo => some (fla, flo, t)
            | _, _, _ => none
        | none => none
      else none
  | _, _, _ => none

/-- The source's `extract_points`: parse every `.//trkpt` descendant,
silently dropping the failures. -/
noncomputable def extract_points (root : Node) : List (ℚ × ℚ × Int) :=
  (findallLocal root (str "trkpt")).filterMap parsePoint

/-- Python's `math.radians`. -/
noncomputable def radians (x : ℝ) : ℝ := x * (Real.pi / 180)

/-- Modelled from C's `atan2` as Python's `math.atan2` exposes it (signed
zeros aside, which ℝ does not carry). -/
noncomputable def atan2 (y x : ℝ) : ℝ :=
  if 0 < x then Real.arctan (y / x)
  else if x < 0 then
    (if 0 ≤ y then Real.arctan (y / x) + Real.pi
     else Real.arctan (y / x) - Real.pi)
  else if 0 < y then Real.pi / 2
  else if y < 0 then -(Real.pi / 2)
  else 0

/-- The intermediate `a` of the source's `haversine` (with `phi1`, `phi2`,
`dphi`, `dlambda` inlined): `sin(dphi/2)**2 + cos(phi1)*cos(phi2)*
sin(dlambda/2)**2`. -/
noncomputable def havA (lat1 lon1 lat2 lon2 : ℝ) : ℝ :=
  Real.sin (radians (lat2 - lat1) / 2) ^ 2
    + Real.cos (radians lat1) * Real.cos (radians lat2)
      * Real.sin (radians (lon2 - lon1) / 2) ^ 2

/-- The source's `haversine`: great-circle distance in metres with mean
Earth radius 6371000, `2 * R * atan2(sqrt(a), sqrt(1-a))`. -/
noncomputable def haversine (lat1 lon1 lat2 lon2 : ℝ) : ℝ :=
  2 * 6371000 * atan2 (Real.sqrt (havA lat1 lon1 lat2 lon2))
    (Real.sqrt (1 - havA lat1 lon1 lat2 lon2))

/-- The `total_dist` accumulation loop of `test_data`: fold over the
consecutive point pairs, adding each haversine distance. -/
noncomputable def distSum (points : List (ℚ × ℚ × Int)) : ℝ :=
  (points.zip points.tail).foldl
    (fun acc pq =>
      acc + haversine (pq.1.1 : ℝ) (pq.1.2.1 : ℝ) (pq.2.1 : ℝ) (pq.2.2.1 : ℝ)) 0

/-- The `total_time` of `test_data`: `points[-1][2] - points[0][2]` in
seconds (defaulting to 0 on lists too short to reach that line). -/
def elapsedTime (points : List (ℚ × ℚ × Int)) : Int :=
  match points.getLast?, points.head? with
  | some q, some p => q.2.2 - p.2.2
  | _, _ => 0

/-- Whether some node of the document (root included, as `root.iter()`)
has "depth" in its lowercased full tag string. -/
noncomputable def depthAny (root : Node) : Bool :=
  (iterSelf root).any (fun e => containsSub (str "depth") (lowerStr (ntag e)))

open Classical in
/-- The source's `test_data`: swim on any depth-tagged node, `0` (here
`none`) below 10 parsed points or for non-positive elapsed time, otherwise
the ordered average-speed threshold bands. -/
noncomputable def test_data (root : Node) : Option (List Char) :=
  if depthAny root then some (str "swim")
  else
    let points := extract_points root
    if points.length < 10 then none
    else
      let total_time : ℝ := ((elapsedTime points : ℤ) : ℝ)
      let total_dist : ℝ := distSum points
      if total_time ≤ 0 then none
      else
        let avg_speed_kmh := (total_dist / 1000) / (total_time / 3600)
        if 12 < avg_speed_kmh then some (str "ride")
        else if 7 < avg_speed_kmh ∧ avg_speed_kmh ≤ 12 then some (str "run")
        else if 4 < avg_speed_kmh ∧ avg_speed_kmh ≤ 7 then some (str "walk")
        else if avg_speed_kmh ≤ 4 ∧ 5000 < total_dist then some (str "hike")
        else if total_time < 1800 ∧ total_dist < 2000 then some (str "workout")
        else none

/-- `Counter(results).most_common(1)[0]` for a nonempty list: the value
with the greatest multiplicity, ties resolved to the earliest first
occurrence (Counter keys are in insertion order and `most_common`'s sort is
stable). -/
def mostCommon (l : List (List Char)) : List Char × Nat :=
  l.foldl (fun best x => if best.2 < l.count x then (x, l.count x) else best)
    (str "", 0)

/-- The verdict-combination logic of `determine_gpx_activity`: drop the
falsy verdicts, take a majority of two or more if one exists, otherwise
fall back to the first truthy verdict in order r1, r2, r3, and normalize;
all falsy gives "Other". -/
def combine (r1 r2 r3 : Option (List Char)) : List Char :=
  let results := [r1, r2, r3].filterMap id
  let fallback :=
    match [r1, r2, r3].findSome? id with
    | some r => normalize_activity (some r)
    | none => str "Other"
  match results with
  | [] => fallback
  | _ :: _ =>
      if 2 ≤ (mostCommon results).2 then
        normalize_activity (some (mostCommon results).1)
      else fallback

/-- The source's `determine_gpx_activity`, from the parsed document tree
(the file reading and XML deserialisation that precede it are the external
collaborator's job): run the three detectors in order and combine. -/
noncomputable def determine_gpx_activity (root : Node) : List Char :=
  combine (test_metadata root) (test_keywords root) (test_data root)

/-- A GPX node with the given local tag, text and children, no attributes. -/
def el (tg : String) (tx : Option String) (cs : List Node) : Node :=
  .mk (str tg) (tx.map str) [] cs

/-- A trkpt node with lat/lon attribute strings and a time child. -/
def trkptEl (la lo tm : String) : Node :=
  .mk (str "trkpt") none [(str "lat", str la), (str "lon", str lo)]
    [el "time" (some tm) []]

/-- Claim C1's description of the combiner: if at least two of the
non-NO_SIGNAL verdicts agree, the normalized label of that majority value;
otherwise the normalized label of the first non-NO_SIGNAL verdict in the
order r1, r2, r3; "Other" when all three are NO_SIGNAL. -/
def combineSpec (r1 r2 r3 : Option (List Char)) : List Char :=
  if r1 ≠ none ∧ r1 = r2 then normalize_activity r1
  else if r1 ≠ none ∧ r1 = r3 then normalize_activity r1
  else if r2 ≠ none ∧ r2 = r3 then normalize_activity r2
  else
    match [r1, r2, r3].findSome? id with
    | some r => normalize_activity (some r)
    | none => str "Other"

open Classical in
/-- Claim C2's description of the kinematic bands, as a pure function of
total distance (metres) and total time (seconds): first matching band wins,
with `avg_speed_kmh = (total_distance/1000) / (total_time/3600)`. -/
noncomputable def kinSpec (total_dist total_time : ℝ) : Option (List Char) :=
  let avg_speed_kmh := (total_dist / 1000) / (total_time / 3600)
  if 12 < avg_speed_kmh then some (str "ride")
  else if 7 < avg_speed_kmh ∧ avg_speed_kmh ≤ 12 then some (str "run")
  else if 4 < avg_speed_kmh ∧ avg_speed_kmh ≤ 7 then some (str "walk")
  else if avg_speed_kmh ≤ 4 ∧ 5000 < total_dist then some (str "hike")
  else if total_time < 1800 ∧ total_dist < 2000 then some (str "workout")
  else none

/-- Claim C7's description of the normalizer: case-fold, map each of the
six known tags to its canonical capitalized label, everything else
(including `None` and empty input) to "Other". -/
def specNormalize : Option (List Char) → List Char
  | none => str "Other"
  | some s =>
      if lowerStr s = str "ride" then str "Ride"
      else if lowerStr s = str "run" then str "Run"
      else if lowerStr s = str "swim" then str "Swim"
      else if lowerStr s = str "walk" then str "Walk"
      else if lowerStr s = str "hike" then str "Hike"
      else if lowerStr s = str "workout" then str "Workout"
      else str "Other"

/-- Claim C5's description of when a trkpt node contributes a parsed
point: latitude, longitude and a time child are all present and parse
(timestamp after the Z-replacement). -/
def pointOk (n : Node) (p : ℚ × ℚ × Int) : Prop :=
  ∃ la lo te ts,
    getAttr n (str "lat") = some la ∧ la ≠ [] ∧
    getAttr n (str "lon") = some lo ∧ lo ≠ [] ∧
    findChild n (str "time") = some te ∧ ntext te = some ts ∧
    pyFloat la = some p.1 ∧ pyFloat lo = some p.2.1 ∧
    fromiso (replaceZ ts) = some p.2.2

/-- Ten coincident track points over 90 seconds: enough samples, positive
elapsed time, no depth data. -/
def wdoc2 : Node :=
  el "gpx" none [el "trk" none [el "trkseg" none
    [trkptEl "50.0" "10.0" "2020-01-01T00:00:00Z",
     trkptEl "50.0" "10.0" "2020-01-01T00:00:10Z",
     trkptEl "50.0" "10.0" "2020-01-01T00:00:20Z",
     trkptEl "50.0" "10.0" "2020-01-01T00:00:30Z",
     trkptEl "50.0" "10.0" "2020-01-01T00:00:40Z",
     trkptEl "50.0" "10.0" "2020-01-01T00:00:50Z",
     trkptEl "50.0" "10.0" "2020-01-01T00:01:00Z",
     trkptEl "50.0" "10.0" "2020-01-01T00:01:10Z",
     trkptEl "50.0" "10.0" "2020-01-01T00:01:20Z",
     trkptEl "50.0" "10.0" "2020-01-01T00:01:30Z"]]]

/-- A document with dive depth data whose metadata and free text both say
cycling. -/
def cdoc3 : Node :=
  el "gpx" none [el "type" (some "cycling") [], el "name" (some "bike") [],
    el "extensions" none [el "depth" (some "3.1") []]]

/-- A document whose only content is a depth node: no metadata or keyword
signal, no track points. -/
def depthOnlyDoc : Node :=
  el "gpx" none [el "extensions" none [el "depth" (some "2.0") []]]

/-- A document with no signal at all: no points, no markers, no keywords. -/
def emptyDoc : Node := el "gpx" none [el "trk" none []]

/-- A node whose namespace URI contains the word "depth" while its local
tag name is just "pt". -/
def cnode6 : Node :=
  Node.mk (str "\x7bhttp://deep.example/depth\x7dpt") none [] []

/-- A document whose only peculiarity is a namespace URI containing the
word "depth"; every LOCAL tag name is innocent. -/
def cdoc6 : Node := el "gpx" none [cnode6]

/-- A node whose namespace URI contains the structural marker "sport"
while its local tag name "meta" contains no marker; its text says
"cycling". -/
def cnode6m : Node :=
  Node.mk (str "\x7bhttp://example.com/sport\x7dmeta")
    (some (str "cycling")) [] []

/-- A document in which the only occurrence of a metadata marker is inside
a namespace URI; every LOCAL tag name is marker-free. -/
def cdoc6m : Node := el "gpx" none [cnode6m]

/-- A single track point with latitude 200, outside [-90, 90]. -/
def cdoc9 : Node :=
  el "gpx" none [el "trk" none [el "trkseg" none
    [trkptEl "200" "0" "2020-01-01T00:00:00Z"]]]

/-- Annotations whose fields say "Open" and "Water morning": no single
field contains "open water", the joined blob does. -/
def c10doc : Node :=
  el "gpx" none [el "name" (some "Open") [],
    el "desc" (some "Water morning") []]

theorem iterList_eq (l : List Node) :
    @Node.rec_1 (fun _ => List Node) (fun _ => List Node)
      (fun t x a cs ih => Node.mk t x a cs :: ih) []
      (fun _ _ ihH ihT => ihH ++ ihT) l = iterNodes l := by
  induction l with
  | nil => rfl
  | cons h t ih =>
      simp only [iterNodes, List.flatMap_cons] at ih ⊢
      rw [ih]
      rfl

/-- Unfolding equation of `iterSelf`. -/
theorem iterSelf_mk (t x a cs) :
    iterSelf (Node.mk t x a cs) = Node.mk t x a cs :: iterNodes cs := by
  show Node.mk t x a cs :: @Node.rec_1 (fun _ => List Node) (fun _ => List Node)
      (fun t x a cs ih => Node.mk t x a cs :: ih) []
      (fun _ _ ihH ihT => ihH ++ ihT) cs = _
  rw [iterList_eq]

theorem combine_eq_combineSpec (r1 r2 r3 : Option (List Char)) :
    combine r1 r2 r3 = combineSpec r1 r2 r3 := by
  rcases r1 with _ | a <;> rcases r2 with _ | b <;> rcases r3 with _ | c
  · rfl
  · simp [combine, combineSpec, mostCommon, List.count_cons, List.count_nil]
  · simp [combine, combineSpec, mostCommon, List.count_cons, List.count_nil]
  · by_cases hbc : b = c
    · subst hbc
      simp [combine, combineSpec, mostCommon, List.count_cons, List.count_nil]
    · simp [combine, combineSpec, mostCommon, List.count_cons, List.count_nil,
        hbc, Ne.symm hbc]
  · simp [combine, combineSpec, mostCommon, List.count_cons, List.count_nil]
  · by_cases hac : a = c
    · subst hac
      simp [combine, combineSpec, mostCommon, List.count_cons, List.count_nil]
    · simp [combine, combineSpec, mostCommon, List.count_cons, List.count_nil,
        hac, Ne.symm hac]
  · by_cases hab : a = b
    · subst hab
      simp [combine, combineSpec, mostCommon, List.count_cons, List.count_nil]
    · simp [combine, combineSpec, mostCommon, List.count_cons, List.count_nil,
        hab, Ne.symm hab]
  · by_cases hab : a = b
    · subst hab
      by_cases hac : a = c
      · subst hac
        simp [combine, combineSpec, mostCommon, List.count_cons, List.count_nil]
      · simp [combine, combineSpec, mostCommon, List.count_cons, List.count_nil,
          hac, Ne.symm hac]
    · by_cases hac : a = c
      · subst hac
        simp [combine, combineSpec, mostCommon, List.count_cons, List.count_nil,
          hab, Ne.symm hab]
      · by_cases hbc : b = c
        · subst hbc
          simp [combine, combineSpec, mostCommon, List.count_cons, List.count_nil,
            hab, Ne.symm hab]
        · simp [combine, combineSpec, mostCommon, List.count_cons, List.count_nil,
            hab, Ne.symm hab, hac, Ne.symm hac, hbc, Ne.symm hbc]

theorem atan2_nonneg {y x : ℝ} (hy : 0 ≤ y) (hx : 0 ≤ x) : 0 ≤ atan2 y x := by
  unfold atan2
  split_ifs with h1 h2 h3 h4
  · have hq : (0:ℝ) ≤ y / x := div_nonneg hy hx
    calc (0:ℝ) = Real.arctan 0 := Real.arctan_zero.symm
    _ ≤ Real.arctan (y / x) := Real.arctan_strictMono.monotone hq
  all_goals first
    | linarith
    | positivity

theorem havA_self (lat lon : ℝ) : havA lat lon lat lon = 0 := by
  simp [havA, radians]

theorem haversine_self (lat lon : ℝ) : haversine lat lon lat lon = 0 := by
  simp [haversine, havA_self, atan2, Real.sqrt_one, Real.arctan_zero]

theorem sin_radians_sub_sq (u v : ℝ) :
    Real.sin (radians (u - v) / 2) ^ 2 = Real.sin (radians (v - u) / 2) ^ 2 := by
  have h : radians (u - v) = -(radians (v - u)) := by unfold radians; ring
  rw [h, neg_div, Real.sin_neg, neg_sq]

theorem havA_comm (lat1 lon1 lat2 lon2 : ℝ) :
    havA lat1 lon1 lat2 lon2 = havA lat2 lon2 lat1 lon1 := by
  unfold havA
  rw [sin_radians_sub_sq lat1 lat2, sin_radians_sub_sq lon1 lon2]
  ring

theorem haversine_comm (lat1 lon1 lat2 lon2 : ℝ) :
    haversine lat1 lon1 lat2 lon2 = haversine lat2 lon2 lat1 lon1 := by
  unfold haversine
  rw [havA_comm]

theorem haversine_nonneg (lat1 lon1 lat2 lon2 : ℝ) :
    0 ≤ haversine lat1 lon1 lat2 lon2 := by
  unfold haversine
  have h := atan2_nonneg (Real.sqrt_nonneg (havA lat1 lon1 lat2 lon2))
    (Real.sqrt_nonneg (1 - havA lat1 lon1 lat2 lon2))
  positivity

theorem parsePoint_eq_some_iff (n : Node) (p : ℚ × ℚ × Int) :
    parsePoint n = some p ↔ pointOk n p := by
  obtain ⟨p1, p2, p3⟩ := p
  unfold parsePoint pointOk
  rcases hla : getAttr n (str "lat") with _ | la
  · simp [hla]
  rcases hlo : getAttr n (str "lon") with _ | lo
  · simp [hla, hlo]
  rcases hte : findChild n (str "time") with _ | te
  · simp [hla, hlo, hte]
  by_cases hne : la ≠ [] ∧ lo ≠ []
  · rcases hts : ntext te with _ | ts
    · simp [hla, hlo, hte, hts, hne]
    · rcases hti : fromiso (replaceZ ts) with _ | t <;>
        rcases hfa : pyFloat la with _ | fla <;>
          rcases hfo : pyFloat lo with _ | flo <;>
            simp [hla, hlo, hte, hts, hne, hti, hfa, hfo]
  · have hor : la = [] ∨ lo = [] := by tauto
    rcases hor with h | h <;> subst h <;> simp [hla, hlo, hte]

theorem mem_extract_points_iff (root : Node) (p : ℚ × ℚ × Int) :
    p ∈ extract_points root ↔
      ∃ n, n ∈ findallLocal root (str "trkpt") ∧ pointOk n p := by
  unfold extract_points
  rw [List.mem_filterMap]
  constructor
  · rintro ⟨n, hn, hp⟩
    exact ⟨n, hn, (parsePoint_eq_some_iff n p).mp hp⟩
  · rintro ⟨n, hn, hp⟩
    exact ⟨n, hn, (parsePoint_eq_some_iff n p).mpr hp⟩

theorem replaceZ_no_z {t : List Char} (h : 'Z' ∉ t) : replaceZ t = t := by
  induction t with
  | nil => rfl
  | cons c cs ih =>
      have hc : c ≠ 'Z' := fun e => h (e ▸ List.mem_cons_self c cs)
      have hcs : 'Z' ∉ cs := fun m => h (List.mem_cons_of_mem c m)
      simp [replaceZ, List.flatMap_cons, hc] at ih ⊢
      exact ih hcs

theorem replaceZ_suffix {s : List Char} (hz : s.getLast? = some 'Z')
    (honce : 'Z' ∉ s.dropLast) :
    replaceZ s = s.dropLast ++ str "+00:00" := by
  have hne : s ≠ [] := by
    intro e; rw [e] at hz; exact Option.noConfusion hz
  have hs : s = s.dropLast ++ ['Z'] := by
    conv_lhs => rw [← List.dropLast_append_getLast hne]
    rw [List.getLast_eq_iff_getLast?_eq_some hne |>.mpr hz]
  conv_lhs => rw [hs]
  unfold replaceZ
  rw [List.flatMap_append]
  rw [show (['Z'].flatMap fun c => if c = 'Z' then str "+00:00" else [c]) = str "+00:00" by rfl]
  congr 1
  exact replaceZ_no_z honce

/-- C1: for every document, `classify` runs the three detectors in the
fixed order [metadata, keyword, kinematic]; a value with at least two of
the non-NO_SIGNAL votes wins and is normalized; with no majority the first
non-NO_SIGNAL verdict in order r1, r2, r3 is normalized; all NO_SIGNAL
yields "Other" (the right-hand side `combineSpec` spells out exactly this
procedure). -/
theorem c1_classify_combiner (root : Node) :
    determine_gpx_activity root =
      combineSpec (test_metadata root) (test_keywords root) (test_data root) :=
  combine_eq_combineSpec (test_metadata root) (test_keywords root) (test_data root)

/-- C2: for every parsed track with at least 10 points, positive elapsed
time and no depth-tagged node, the kinematic detector applies the ordered
speed bands of `kinSpec` to the haversine total distance and the
last-minus-first elapsed time. -/
theorem c2_kinematic_bands (root : Node)
    (hd : depthAny root = false)
    (hlen : 10 ≤ (extract_points root).length)
    (ht : 0 < elapsedTime (extract_points root)) :
    test_data root =
      kinSpec (distSum (extract_points root))
        ((elapsedTime (extract_points root) : ℤ) : ℝ) := by
  have h2 : ¬ ((extract_points root).length < 10) := Nat.not_lt.mpr hlen
  have h3 : ¬ (((elapsedTime (extract_points root) : ℤ) : ℝ) ≤ 0) := by
    rw [not_le]
    exact_mod_cast ht
  simp only [test_data, hd, Bool.false_eq_true, if_false, h2, h3, kinSpec]

/-- Witness for C2 at the concrete ten-point document `wdoc2`. -/
theorem c2_kinematic_bands_witness :
    depthAny wdoc2 = false ∧ 10 ≤ (extract_points wdoc2).length ∧
    0 < elapsedTime (extract_points wdoc2) ∧
    test_data wdoc2 =
      kinSpec (distSum (extract_points wdoc2))
        ((elapsedTime (extract_points wdoc2) : ℤ) : ℝ) :=
  ⟨by decide, by decide, by decide,
    c2_kinematic_bands wdoc2 (by decide) (by decide) (by decide)⟩

/-- C3 counterexample: `cdoc3` carries a depth node, yet its cycling
metadata and "bike" free text outvote the kinematic swim verdict, so
`classify` returns "Ride", not "Swim" — refuting the claim that a depth
node forces "Swim" for every document. -/
theorem c3_counterexample :
    depthAny cdoc3 = true ∧ determine_gpx_activity cdoc3 = str "Ride" ∧
    str "Ride" ≠ str "Swim" := by decide

/-- C3 amended: a depth-tagged node makes the kinematic detector return
swim immediately, and `classify` returns "Swim" provided neither the
metadata detector nor the keyword detector produces a verdict other than
swim. -/
theorem c3_depth_swim_amended (root : Node) (hd : depthAny root = true)
    (h1 : test_metadata root = none ∨ test_metadata root = some (str "swim"))
    (h2 : test_keywords root = none ∨ test_keywords root = some (str "swim")) :
    test_data root = some (str "swim") ∧
    determine_gpx_activity root = str "Swim" := by
  have hdata : test_data root = some (str "swim") := by
    simp [test_data, hd]
  refine ⟨hdata, ?_⟩
  unfold determine_gpx_activity
  rcases h1 with h1 | h1 <;> rcases h2 with h2 | h2 <;>
    rw [h1, h2, hdata] <;> decide

/-- Witness for the amended C3 at the depth-only document. -/
theorem c3_depth_swim_amended_witness :
    depthAny depthOnlyDoc = true ∧
    (test_data depthOnlyDoc = some (str "swim") ∧
      determine_gpx_activity depthOnlyDoc = str "Swim") :=
  ⟨by decide, c3_depth_swim_amended depthOnlyDoc (by decide)
    (Or.inl (by decide)) (Or.inl (by decide))⟩

/-- C4 counterexample: the depth-only document has fewer than 10 parsed
points and no metadata or keyword signal, yet `classify` returns "Swim"
(the depth override), not "Other" — refuting the claim as stated. -/
theorem c4_counterexample :
    (extract_points depthOnlyDoc).length < 10 ∧
    test_metadata depthOnlyDoc = none ∧ test_keywords depthOnlyDoc = none ∧
    determine_gpx_activity depthOnlyDoc = str "Swim" ∧
    str "Swim" ≠ str "Other" := by decide

/-- C4 amended: for a document with no depth-tagged node, fewer than 10
parsed points or non-positive elapsed time makes the kinematic detector
return NO_SIGNAL rather than fail, and if the other two detectors also
return NO_SIGNAL the combiner returns "Other". -/
theorem c4_degraded_amended (root : Node) (hd : depthAny root = false)
    (hk : (extract_points root).length < 10 ∨
      elapsedTime (extract_points root) ≤ 0)
    (hm : test_metadata root = none) (hkw : test_keywords root = none) :
    test_data root = none ∧ determine_gpx_activity root = str "Other" := by
  have hdata : test_data root = none := by
    rcases hk with hk | hk
    · simp only [test_data, hd, Bool.false_eq_true, if_false, hk, if_true]
    · by_cases hl : (extract_points root).length < 10
      · simp only [test_data, hd, Bool.false_eq_true, if_false, hl, if_true]
      · have hc : ((elapsedTime (extract_points root) : ℤ) : ℝ) ≤ 0 := by
          exact_mod_cast hk
        simp only [test_data, hd, Bool.false_eq_true, if_false, hl, hc,
          if_true, if_false]
  refine ⟨hdata, ?_⟩
  unfold determine_gpx_activity
  rw [hm, hkw, hdata]
  decide

/-- Witness for the amended C4 at the signal-free document. -/
theorem c4_degraded_amended_witness :
    depthAny emptyDoc = false ∧
    (extract_points emptyDoc).length < 10 ∧
    test_metadata emptyDoc = none ∧ test_keywords emptyDoc = none ∧
    (test_data emptyDoc = none ∧ determine_gpx_activity emptyDoc = str "Other") :=
  ⟨by decide, by decide, by decide, by decide,
    c4_degraded_amended emptyDoc (by decide) (Or.inl (by decide))
      (by decide) (by decide)⟩

/-- C5: a point is included exactly when latitude, longitude and a child
time node are present and parse, with the timestamp's trailing "Z" turned
into "+00:00" before ISO parsing (`replaceZ`, the source's `replace`, acts
on the whole string; on a timestamp whose only "Z" is the final one this is
precisely the suffix substitution); unparsable points are silently omitted,
so the result is just the sublist of parsed points. -/
theorem c5_point_inclusion (root : Node) (p : ℚ × ℚ × Int) (s : List Char)
    (hz : s.getLast? = some 'Z') (honce : 'Z' ∉ s.dropLast) :
    (p ∈ extract_points root ↔
      ∃ n, n ∈ findallLocal root (str "trkpt") ∧ pointOk n p) ∧
    replaceZ s = s.dropLast ++ str "+00:00" :=
  ⟨mem_extract_points_iff root p, replaceZ_suffix hz honce⟩

/-- Witness for C5 at the ten-point document and a "Z"-suffixed timestamp. -/
theorem c5_point_inclusion_witness :
    ((50, 10, 1577836800) ∈ extract_points wdoc2 ↔
      ∃ n, n ∈ findallLocal wdoc2 (str "trkpt") ∧
        pointOk n (50, 10, 1577836800)) ∧
    replaceZ (str "2020-01-01T00:00:00Z")
      = (str "2020-01-01T00:00:00Z").dropLast ++ str "+00:00" :=
  c5_point_inclusion wdoc2 (50, 10, 1577836800) (str "2020-01-01T00:00:00Z")
    (by decide) (by decide)

theorem test_metadata_none_of_no_marker_in_tags (doc : Node)
    (h : ((iterSelf doc).all (fun e =>
      metaMarkers.all (fun k => !(containsSub k (lowerStr (ntag e)))))) = true) :
    test_metadata doc = none := by
  have hnil : (iterSelf doc).filterMap (fun e =>
      if metaMarkers.any (fun k => containsSub k (lowerStr (ntag e))) then
        some (lowerStr ((ntext e).getD []))
      else none) = [] := by
    rw [List.filterMap_eq_nil_iff]
    intro e he
    have h1 := (List.all_eq_true.mp h) e he
    have h2 : metaMarkers.any (fun k => containsSub k (lowerStr (ntag e))) = false := by
      rw [List.any_eq_false]
      intro k hk
      simpa using (List.all_eq_true.mp h1) k hk
    simp [h2]
  simp only [test_metadata, hnil, List.findSome?_nil]

/-- C6 counterexample: in `cdoc6` no LOCAL tag name contains "depth", yet
the kinematic detector fires its swim override; and in `cdoc6m` no LOCAL
tag name contains a structural marker, yet the metadata detector collects
the node's text and returns ride.  Both happen because the source matches
against the full tag string, namespace URI included — refuting the claim
that the depth and metadata-marker checks consult the local tag name
only. -/
theorem c6_counterexample :
    ((iterSelf cdoc6).all
      (fun n => !(containsSub (str "depth") (lowerStr (localName (ntag n)))))) = true ∧
    test_data cdoc6 = some (str "swim") ∧
    ((iterSelf cdoc6m).all (fun e =>
      metaMarkers.all (fun k => !(containsSub k (lowerStr (localName (ntag e))))))) = true ∧
    test_metadata cdoc6m = some (str "ride") := by decide

/-- C6 amended: the trkpt/name/desc/cmt/keywords searches match on the
local tag name irrespective of namespace, but the depth check and the
metadata-marker check substring-match the FULL tag string, so a namespace
URI containing "depth" triggers the swim override and a namespace URI
containing a marker makes the node's text a metadata candidate.  The third
conjunct shows the marker check ranges over nothing but the full tag
strings (no marker in any full tag forces NO_SIGNAL); the fourth shows a
document whose only marker occurrence is inside a URI — every local name
marker-free — on which the metadata detector nevertheless fires. -/
theorem c6_tag_matching_amended (root : Node) (tg : List Char) (n : Node)
    (hd : depthAny root = true) :
    (n ∈ findallLocal root tg ↔
      n ∈ descendantsList root ∧ localName (ntag n) = tg) ∧
    test_data root = some (str "swim") ∧
    (∀ doc : Node, ((iterSelf doc).all (fun e =>
        metaMarkers.all (fun k => !(containsSub k (lowerStr (ntag e)))))) = true →
      test_metadata doc = none) ∧
    (((iterSelf cdoc6m).all (fun e =>
        metaMarkers.all (fun k => !(containsSub k (lowerStr (localName (ntag e))))))) = true ∧
      test_metadata cdoc6m = some (str "ride")) := by
  refine ⟨?_, ?_, fun doc h => test_metadata_none_of_no_marker_in_tags doc h,
    by decide, by decide⟩
  · rw [findallLocal, List.mem_filter]
    simp
  · simp [test_data, hd]

/-- Witness for the amended C6 at `cdoc6` and its namespaced node. -/
theorem c6_tag_matching_amended_witness :
    depthAny cdoc6 = true ∧
    ((cnode6 ∈ findallLocal cdoc6 (str "pt") ↔
      cnode6 ∈ descendantsList cdoc6 ∧ localName (ntag cnode6) = str "pt") ∧
    test_data cdoc6 = some (str "swim") ∧
    (∀ doc : Node, ((iterSelf doc).all (fun e =>
        metaMarkers.all (fun k => !(containsSub k (lowerStr (ntag e)))))) = true →
      test_metadata doc = none) ∧
    (((iterSelf cdoc6m).all (fun e =>
        metaMarkers.all (fun k => !(containsSub k (lowerStr (localName (ntag e))))))) = true ∧
      test_metadata cdoc6m = some (str "ride"))) :=
  ⟨by decide, c6_tag_matching_amended cdoc6 (str "pt") cnode6 (by decide)⟩

/-- C7: the label normalizer is a pure total function agreeing with the
claimed case table: each of the six known tags (after case-folding) maps to
its canonical capitalized label and every other input, `None` and the
empty string included, maps to "Other"; being a total Lean function it
cannot raise. -/
theorem c7_normalizer (lab : Option (List Char)) :
    normalize_activity lab = specNormalize lab := by
  have key : ∀ t : List Char,
      ((NORMALIZED_OUTPUT.lookup t).getD (str "Other")) =
      (if t = str "ride" then str "Ride"
       else if t = str "run" then str "Run"
       else if t = str "swim" then str "Swim"
       else if t = str "walk" then str "Walk"
       else if t = str "hike" then str "Hike"
       else if t = str "workout" then str "Workout"
       else str "Other") := by
    intro t
    split_ifs with h1 h2 h3 h4 h5 h6
    · subst h1; decide
    · subst h2; decide
    · subst h3; decide
    · subst h4; decide
    · subst h5; decide
    · subst h6; decide
    · by_cases h7 : t = str "other"
      · subst h7; decide
      · have b1 : (t == str "ride") = false := by simp [h1]
        have b2 : (t == str "run") = false := by simp [h2]
        have b3 : (t == str "swim") = false := by simp [h3]
        have b4 : (t == str "walk") = false := by simp [h4]
        have b5 : (t == str "hike") = false := by simp [h5]
        have b6 : (t == str "workout") = false := by simp [h6]
        have b7 : (t == str "other") = false := by simp [h7]
        simp [NORMALIZED_OUTPUT, List.lookup, b1, b2, b3, b4, b5, b6, b7]
  rcases lab with _ | s
  · rfl
  · by_cases h0 : s = []
    · subst h0; rfl
    · simpa [normalize_activity, specNormalize, h0] using key (lowerStr s)

/-- C8: the haversine distance vanishes on coincident points, is symmetric
in its two endpoints, and is nonnegative. -/
theorem c8_haversine_props (lat1 lon1 lat2 lon2 : ℝ) :
    haversine lat1 lon1 lat1 lon1 = 0 ∧
    haversine lat1 lon1 lat2 lon2 = haversine lat2 lon2 lat1 lon1 ∧
    0 ≤ haversine lat1 lon1 lat2 lon2 :=
  ⟨haversine_self lat1 lon1, haversine_comm lat1 lon1 lat2 lon2,
    haversine_nonneg lat1 lon1 lat2 lon2⟩

/-- C9 counterexample: the parser accepts a trkpt with latitude 200, so
the parsed sequence contains a point outside [-90, 90] — refuting the
claimed range invariant. -/
theorem c9_counterexample :
    ((extract_points cdoc9).map (fun p => p.1) = [(200 : ℚ)]) ∧
    ¬ ((200 : ℚ) ≤ 90) := by decide

/-- C9 amended: the parser performs no range validation: every produced
point's coordinates are exactly the float-parsed `lat`/`lon` attribute
strings of some trkpt node, whatever their magnitude. -/
theorem c9_no_range_check_amended (root : Node) (p : ℚ × ℚ × Int)
    (hp : p ∈ extract_points root) :
    ∃ n, n ∈ findallLocal root (str "trkpt") ∧
      ∃ la lo, getAttr n (str "lat") = some la ∧ pyFloat la = some p.1 ∧
        getAttr n (str "lon") = some lo ∧ pyFloat lo = some p.2.1 := by
  obtain ⟨n, hn, hok⟩ := (mem_extract_points_iff root p).mp hp
  obtain ⟨la, lo, te, ts, h1, h2, h3, h4, h5, h6, h7, h8, h9⟩ := hok
  exact ⟨n, hn, la, lo, h1, h7, h3, h8⟩

/-- Witness for the amended C9 at the out-of-range document. -/
theorem c9_no_range_check_amended_witness :
    ∃ n, n ∈ findallLocal cdoc9 (str "trkpt") ∧
      ∃ la lo, getAttr n (str "lat") = some la ∧
        pyFloat la = some ((200 : ℚ), (0 : ℚ), (1577836800 : ℤ)).1 ∧
        getAttr n (str "lon") = some lo ∧
        pyFloat lo = some ((200 : ℚ), (0 : ℚ), (1577836800 : ℤ)).2.1 :=
  c9_no_range_check_amended cdoc9 (200, 0, 1577836800) (by decide)

/-- C10: joining the annotation fields into one space-separated blob lets
the multi-word keyword "open water" match across a field boundary: in
`c10doc` no single annotation field contains "open water", yet the keyword
detector returns swim. -/
theorem c10_cross_field_match :
    test_keywords c10doc = some (str "swim") ∧
    ((annotationTexts c10doc).all
      (fun t => !(containsSub (str "open water") t))) = true := by decide
